import Mathlib

/-!
Shallow embedding of the huracan ETL pipeline (src/main/src/etl.rs and
src/main/src/main.rs): a three-stage extract / transform / load pipeline that
streams on-chain object-change events, enriches them with historical object
state, and persists them to a document store.

Identifiers, versions and digests are opaque to the pipeline; we model them as
natural numbers. Remote services (the Sui RPC read API and the MongoDB
collection) are modelled as oracles passed in as functions: the pipeline only
observes their success and failure results, never their internals.
-/

namespace Huracan

/-- Opaque object identifier (sui ObjectID). -/
abbrev ObjectID := Nat

/-- Monotonically-increasing-per-object version number (sui SequenceNumber). -/
abbrev SequenceNumber := Nat

/-- Opaque transaction digest (sui TransactionDigest). -/
abbrev TransactionDigest := Nat

/-- Resolved historical object snapshot data (sui SuiObjectData); the pipeline
treats its contents as an opaque payload, so we model it as a record with an
identifying payload. -/
structure SuiObjectData where
  object_id : ObjectID
  version : SequenceNumber
  content : Nat
deriving Repr, DecidableEq

/-- The change variant of an event (sui ObjectChange as matched in etl.rs);
each variant carries an object identifier and a version, which is all the
pipeline reads from it. -/
inductive SuiObjectChange where
  | published (object_id : ObjectID) (version : SequenceNumber)
  | created (object_id : ObjectID) (version : SequenceNumber)
  | mutated (object_id : ObjectID) (version : SequenceNumber)
  | transferred (object_id : ObjectID) (version : SequenceNumber)
  | deleted (object_id : ObjectID) (version : SequenceNumber)
  | wrapped (object_id : ObjectID) (version : SequenceNumber)
deriving Repr, DecidableEq

/-- Accessor matching SuiObjectChange::object_id() as used in etl.rs. -/
def SuiObjectChange.objectId : SuiObjectChange → ObjectID
  | .published object_id _ => object_id
  | .created object_id _ => object_id
  | .mutated object_id _ => object_id
  | .transferred object_id _ => object_id
  | .deleted object_id _ => object_id
  | .wrapped object_id _ => object_id

/-- The unit of work flowing through the pipeline (etl.rs ObjectSnapshot). -/
structure ObjectSnapshot where
  digest : TransactionDigest
  change : SuiObjectChange
  object : Option SuiObjectData
deriving Repr, DecidableEq

/-- ObjectSnapshot::new: wraps a change record with object reset to none. -/
def ObjectSnapshot.new (digest : TransactionDigest) (change : SuiObjectChange) :
    ObjectSnapshot :=
  { digest := digest, change := change, object := none }

/-- ObjectSnapshot::get_change_version: every variant carries a version. -/
def ObjectSnapshot.getChangeVersion (s : ObjectSnapshot) : SequenceNumber :=
  match s.change with
  | .published _ version => version
  | .created _ version => version
  | .mutated _ version => version
  | .transferred _ version => version
  | .deleted _ version => version
  | .wrapped _ version => version

/-- Request for a historical object state (sui SuiGetPastObjectRequest). -/
structure SuiGetPastObjectRequest where
  object_id : ObjectID
  version : SequenceNumber
deriving Repr, DecidableEq

/-- ObjectSnapshot::get_past_object_request. -/
def ObjectSnapshot.getPastObjectRequest (s : ObjectSnapshot) :
    SuiGetPastObjectRequest :=
  { object_id := s.change.objectId, version := s.getChangeVersion }

/-- ObjectSnapshot::skip_fetching_object: true for every variant other than
published, created, mutated. -/
def ObjectSnapshot.skipFetchingObject (s : ObjectSnapshot) : Bool :=
  match s.change with
  | .published _ _ => false
  | .created _ _ => false
  | .mutated _ _ => false
  | _ => true

/-- Per-item status attached to an event as it exits transform or load
(etl.rs StepStatus). -/
inductive StepStatus where
  | ok
  | err
deriving Repr, DecidableEq

/-- Response of a historical object lookup (sui SuiPastObjectResponse). -/
inductive SuiPastObjectResponse where
  | versionFound (obj : SuiObjectData)
  | objectDeleted (object_id : ObjectID) (version : SequenceNumber)
      (digest : TransactionDigest)
  | objectNotExists (object_id : ObjectID)
  | versionNotFound (object_id : ObjectID) (version : SequenceNumber)
  | versionTooHigh (object_id : ObjectID) (asked_version : SequenceNumber)
      (latest_version : SequenceNumber)
deriving Repr, DecidableEq

/-- Remote call error; its contents are only ever logged. -/
abbrev RpcError := Nat

/-- parse_past_object_response (etl.rs, inside transform): only a
VersionFound response carries an object; every other outcome is logged and
yields none. -/
def parsePastObjectResponse : SuiPastObjectResponse → Option SuiObjectData
  | .versionFound obj => some obj
  | _ => none

/-- Oracle for ReadApi::try_multi_get_parsed_past_object: one bulk call
covering a whole sub-batch. -/
abbrev BulkApi := List SuiGetPastObjectRequest → Except RpcError (List SuiPastObjectResponse)

/-- Oracle for ReadApi::try_get_parsed_past_object: one individual call. -/
abbrev IndivApi := ObjectID → SequenceNumber → Except RpcError SuiPastObjectResponse

/-- The individual-fetch path applied to one item directly (the body of the
fallback loop in transform, etl.rs lines 190-203): a call error yields
(Err, item); a response carrying an object yields (Ok, item-with-object); a
no-object response yields no emission at all. -/
def individualFetch (indiv : IndivApi) (s : ObjectSnapshot) :
    List (StepStatus × ObjectSnapshot) :=
  match indiv s.change.objectId s.getChangeVersion with
  | .error _ => [(StepStatus.err, s)]
  | .ok res =>
    match parsePastObjectResponse res with
    | some obj => [(StepStatus.ok, { s with object := some obj })]
    | none => []

/-- The fallback loop of transform (etl.rs lines 186-205): on bulk failure,
resolve every needs-fetch item individually, sequentially, in order. -/
def fallbackLoop (indiv : IndivApi) : List ObjectSnapshot →
    List (StepStatus × ObjectSnapshot)
  | [] => []
  | s :: rest =>
    (match indiv s.change.objectId s.getChangeVersion with
     | .error _ => [(StepStatus.err, s)]
     | .ok res =>
       match parsePastObjectResponse res with
       | some obj => [(StepStatus.ok, { s with object := some obj })]
       | none => []) ++ fallbackLoop indiv rest

/-- The bulk-success pairing of transform (etl.rs lines 212-219): zip the
needs-fetch items with the bulk responses in order; a response carrying an
object yields (Ok, item-with-object), a no-object response yields nothing. -/
def zipResolve : List ObjectSnapshot → List SuiPastObjectResponse →
    List (StepStatus × ObjectSnapshot)
  | s :: ss, r :: rs =>
    (match parsePastObjectResponse r with
     | some obj => [(StepStatus.ok, { s with object := some obj })]
     | none => []) ++ zipResolve ss rs
  | _, _ => []

/-- One batch of the transform stage (etl.rs lines 176-221). drain_filter
pulls the skip-fetch items out of the chunk, preserving order on both sides;
the skip-fetch items are emitted first, each as (Ok, item) unchanged; the
remaining needs-fetch items go through one bulk call, falling back to
individual calls if the bulk call errors. On bulk success a response list
whose length differs from the request list is a fatal invariant violation:
the process panics, modelled as none. -/
def transformChunk (bulk : BulkApi) (indiv : IndivApi)
    (chunk : List ObjectSnapshot) :
    Option (List (StepStatus × ObjectSnapshot)) :=
  let skip := chunk.filter ObjectSnapshot.skipFetchingObject
  let rest := chunk.filter (fun o => ! o.skipFetchingObject)
  let skipOut := skip.map (fun it => (StepStatus.ok, it))
  match bulk (rest.map ObjectSnapshot.getPastObjectRequest) with
  | .error _ => some (skipOut ++ fallbackLoop indiv rest)
  | .ok objs =>
    if objs.length ≠ rest.length then none
    else some (skipOut ++ zipResolve rest objs)

/-- One store operation issued against the MongoDB collection, as built in
the load stage (etl.rs lines 239-270): delete_one keyed by the string forms of
object_id and version, or update_one under the same key with the resolved
object as body and the upsert flag as configured. -/
inductive StoreOp where
  | deleteOne (id ver : String)
  | updateOne (id ver : String) (body : SuiObjectData) (upsert : Bool)
deriving Repr, DecidableEq

/-- Oracle for the MongoDB collection: whether delete_one and update_one
succeed for a given key. The pipeline only observes success or failure. -/
structure MongoCollection where
  deleteOk : String → String → Bool
  upsertOk : String → String → Bool

/-- One item of the load stage (etl.rs lines 238-276): a deleted change issues
one delete_one keyed by the string forms of (object_id, version); a created or
mutated change issues one update_one under the same key with upsert set to
true and the attached object as body, where the attached object is unwrapped —
a created or mutated item without an object panics, modelled as none; every
other variant issues nothing and emits nothing. Each attempted operation emits
(Ok, item) on success and (Err, item) on failure. -/
def loadItem (c : MongoCollection) (item : ObjectSnapshot) :
    Option (List StoreOp × List (StepStatus × ObjectSnapshot)) :=
  match item.change with
  | .deleted object_id version =>
    let op := StoreOp.deleteOne (toString object_id) (toString version)
    if c.deleteOk (toString object_id) (toString version) then
      some ([op], [(StepStatus.ok, item)])
    else
      some ([op], [(StepStatus.err, item)])
  | .created object_id version | .mutated object_id version =>
    match item.object with
    | none => none
    | some obj =>
      let op := StoreOp.updateOne (toString object_id) (toString version) obj true
      if c.upsertOk (toString object_id) (toString version) then
        some ([op], [(StepStatus.ok, item)])
      else
        some ([op], [(StepStatus.err, item)])
  | _ => some ([], [])

/-- Result of the driver loop over the transform output (main.rs lines
101-118): the items actually consumed from the transform stage, the items
forwarded downstream, and the item whose Err status was logged before the
stream was stopped, when there is one. -/
structure DriverRun where
  consumed : List (StepStatus × ObjectSnapshot)
  forwarded : List ObjectSnapshot
  failedItem : Option ObjectSnapshot
deriving Repr, DecidableEq

/-- The driver filter stream of main.rs (lines 101-118): pull items from the
transform output; an Ok item is yielded downstream unchanged and the loop
continues; an Err item is logged and the loop breaks, so nothing further is
pulled from upstream. -/
def driverRun : List (StepStatus × ObjectSnapshot) → DriverRun
  | [] => { consumed := [], forwarded := [], failedItem := none }
  | (StepStatus.ok, item) :: rest =>
    let d := driverRun rest
    { consumed := (StepStatus.ok, item) :: d.consumed,
      forwarded := item :: d.forwarded,
      failedItem := d.failedItem }
  | (StepStatus.err, item) :: _ =>
    { consumed := [(StepStatus.err, item)], forwarded := [], failedItem := some item }

/-- Result of the whole Commands::All arm of main (main.rs lines 88-124). -/
structure AllCommandRun where
  forwarded : List ObjectSnapshot
  loggedItems : List ObjectSnapshot
  storeOps : List StoreOp
deriving Repr, DecidableEq

/-- The Commands::All arm of main (main.rs lines 88-124): the transform output
is run through the driver filter, and the forwarded items are then consumed by
the terminal while-let loop (lines 119-121), which only logs each item with
info. No further stage is invoked on the forwarded items: etl::load is never
called in main.rs, so the driver issues no store operation at all. -/
def runAllCommand (transformOut : List (StepStatus × ObjectSnapshot)) :
    AllCommandRun :=
  let d := driverRun transformOut
  { forwarded := d.forwarded, loggedItems := d.forwarded, storeOps := [] }

/-- One transaction block of a page returned by
query_transaction_blocks: a digest and an optional list of object changes. -/
structure TransactionBlock where
  digest : TransactionDigest
  object_changes : Option (List SuiObjectChange)
deriving Repr, DecidableEq

/-- One page returned by query_transaction_blocks: its data and the optional
next cursor. -/
structure Page where
  data : List TransactionBlock
  next_cursor : Option TransactionDigest
deriving Repr, DecidableEq

/-- Outcome of one query_transaction_blocks request as observed by the
extractor loop: a successful page or a transient request error. -/
inductive QueryResult where
  | ok (p : Page)
  | err (e : RpcError)
deriving Repr, DecidableEq

/-- Local state of the extractor loop (etl.rs extract): the current cursor,
the skip flag for the page about to be received, and the retry counter. -/
structure ExtractState where
  cursor : Option TransactionDigest
  skip_page : Bool
  retry_count : Nat
deriving Repr, DecidableEq

/-- Observable effects of one iteration of the extractor loop: the events
emitted, the sleep taken (in milliseconds), and the page-boundary callback
invocation (previous cursor, next cursor), when any. -/
structure ExtractEffects where
  emitted : List ObjectSnapshot
  slept_ms : Option Nat
  page_callback : Option (Option TransactionDigest × TransactionDigest)
deriving Repr, DecidableEq

/-- Events of one page, in page order (etl.rs lines 89-95): for every
transaction block that carries object changes, one ObjectSnapshot per change,
with object reset to none. -/
def pageEvents (p : Page) : List ObjectSnapshot :=
  p.data.flatMap (fun tb =>
    match tb.object_changes with
    | some changes => changes.map (fun change => ObjectSnapshot.new tb.digest change)
    | none => [])

/-- One iteration of the extractor loop (etl.rs lines 85-115) on a query
outcome. On a successful page the retry counter resets; the page data is
emitted unless the skip flag is set; a missing next cursor marks the following
page as skip and sleeps 10 s with the cursor unchanged; a present next cursor
clears the skip flag, invokes the page-boundary callback and advances the
cursor. On a transient error nothing is emitted, the retry counter grows, a
fixed 500 ms sleep is taken, and the cursor and skip flag are unchanged. -/
def extractStep (s : ExtractState) : QueryResult → ExtractEffects × ExtractState
  | .ok p =>
    let emitted := if s.skip_page then [] else pageEvents p
    match p.next_cursor with
    | none =>
      ({ emitted := emitted, slept_ms := some 10000, page_callback := none },
       { cursor := s.cursor, skip_page := true, retry_count := 0 })
    | some c =>
      ({ emitted := emitted, slept_ms := none, page_callback := some (s.cursor, c) },
       { cursor := some c, skip_page := false, retry_count := 0 })
  | .err _ =>
    ({ emitted := [], slept_ms := some 500, page_callback := none },
     { cursor := s.cursor, skip_page := s.skip_page, retry_count := s.retry_count + 1 })

/-- The extractor loop run over a sequence of query outcomes, collecting all
emitted events in order together with the final state. The real loop also
races every request against the termination signal and breaks when it fires;
a run here models the iterations before that point. -/
def extractRun (s : ExtractState) : List QueryResult → List ObjectSnapshot × ExtractState
  | [] => ([], s)
  | q :: qs =>
    let (eff, s1) := extractStep s q
    let (rest, s2) := extractRun s1 qs
    (eff.emitted ++ rest, s2)

/-- Measure used to state how many items a transform batch absorbs: the
number of needs-fetch items of the chunk whose resolution returned a
no-object outcome — under bulk failure, those whose individual fetch emits
nothing; under bulk success, the responses that parse to none. -/
def droppedCount (bulk : BulkApi) (indiv : IndivApi)
    (chunk : List ObjectSnapshot) : Nat :=
  let rest := chunk.filter (fun o => ! o.skipFetchingObject)
  match bulk (rest.map ObjectSnapshot.getPastObjectRequest) with
  | .error _ => rest.countP (fun s => (individualFetch indiv s).length == 0)
  | .ok objs => objs.countP (fun r => (parsePastObjectResponse r).isNone)

/-- Erases the object field of a snapshot; two snapshots equal under this map
are the same event, differing at most in the attached object. -/
def stripObject (s : ObjectSnapshot) : ObjectSnapshot :=
  { s with object := none }

/-! Concrete fixtures used by the witnesses and counterexamples below. -/

/-- A deleted-variant event, as produced by the extractor. -/
def sampleDeleted : ObjectSnapshot := ObjectSnapshot.new 3 (SuiObjectChange.deleted 7 5)

/-- A created-variant event, as produced by the extractor. -/
def sampleCreated : ObjectSnapshot := ObjectSnapshot.new 4 (SuiObjectChange.created 9 1)

/-- A mutated-variant event, as produced by the extractor. -/
def sampleMutated : ObjectSnapshot := ObjectSnapshot.new 4 (SuiObjectChange.mutated 11 2)

/-- A resolved object snapshot payload. -/
def sampleObj : SuiObjectData := { object_id := 9, version := 1, content := 42 }

/-- A collection oracle on which every store operation succeeds. -/
def allOkCollection : MongoCollection :=
  { deleteOk := fun _ _ => true, upsertOk := fun _ _ => true }

/-- An individual-fetch oracle that always fails. -/
def indivErr : IndivApi := fun _ _ => Except.error 1

/-- An individual-fetch oracle: object 9 resolves, everything else errors. -/
def indivMixed : IndivApi := fun oid _ =>
  if oid == 9 then Except.ok (SuiPastObjectResponse.versionFound sampleObj)
  else Except.error 1

/-- A bulk oracle that answers every request list with an empty response
list: its length matches only the empty request. -/
def bulkEmptyOk : BulkApi := fun _ => Except.ok []

/-- A bulk oracle that answers every request with a same-length list of
no-object outcomes. -/
def bulkNotExists : BulkApi := fun reqs =>
  Except.ok (reqs.map (fun r => SuiPastObjectResponse.objectNotExists r.object_id))

/-- A bulk oracle that always fails, forcing the fallback path. -/
def bulkFail : BulkApi := fun _ => Except.error 7

/-- A first page carrying one event and a next cursor. -/
def pageOne : Page :=
  { data := [⟨1, some [SuiObjectChange.created 10 1]⟩], next_cursor := some 100 }

/-- The stall page: one event, no next cursor. -/
def pageStall : Page :=
  { data := [⟨2, some [SuiObjectChange.mutated 11 2]⟩], next_cursor := none }

/-- An intermediate re-poll of the stall point, still without a next cursor. -/
def pageMid : Page :=
  { data := [⟨2, some [SuiObjectChange.mutated 11 2]⟩], next_cursor := none }

/-- The successful re-poll: same content as the stall page, now with a next
cursor. -/
def pageRepoll : Page :=
  { data := [⟨2, some [SuiObjectChange.mutated 11 2]⟩], next_cursor := some 200 }

/-! Theorems. -/

/-- Any number of consecutive transient errors leaves the cursor and skip
flag untouched, emits nothing, and only grows the retry counter. -/
lemma extractRun_replicate_err (e : RpcError) (n : Nat) (s : ExtractState) :
    extractRun s (List.replicate n (QueryResult.err e)) =
      ([], { cursor := s.cursor, skip_page := s.skip_page,
             retry_count := s.retry_count + n }) := by
  induction n generalizing s with
  | zero => simp [extractRun]
  | succ n ih =>
    have h1 : extractRun s (List.replicate (n + 1) (QueryResult.err e)) =
        ([] ++ (extractRun
            { cursor := s.cursor, skip_page := s.skip_page,
              retry_count := s.retry_count + 1 }
            (List.replicate n (QueryResult.err e))).1,
         (extractRun
            { cursor := s.cursor, skip_page := s.skip_page,
              retry_count := s.retry_count + 1 }
            (List.replicate n (QueryResult.err e))).2) := rfl
    rw [h1, ih]
    simp only [List.nil_append]
    congr 2
    omega

/-- C8: on a transient page-request error the extractor emits nothing for
that attempt, sleeps a fixed 500 ms, and retries with the same cursor; this
holds for every state, so the retry count is unbounded and the delay never
grows with it, and a run of any number of consecutive errors emits nothing
and keeps the cursor. -/
theorem extract_transient_error_fixed_retry (s : ExtractState) (e : RpcError) (n : Nat) :
    extractStep s (QueryResult.err e) =
      ({ emitted := [], slept_ms := some 500, page_callback := none },
       { cursor := s.cursor, skip_page := s.skip_page,
         retry_count := s.retry_count + 1 }) ∧
    extractRun s (List.replicate n (QueryResult.err e)) =
      ([], { cursor := s.cursor, skip_page := s.skip_page,
             retry_count := s.retry_count + n }) :=
  ⟨rfl, extractRun_replicate_err e n s⟩

/-- C10: when the skip flag is set, a successful page emits none of its
change records, whatever the page contains; and when that page carries a next
cursor, the cursor advances past it and the skip flag clears, so records
present only in the re-polled page are never emitted. -/
theorem extract_skip_page_suppresses_emission (s : ExtractState) (p : Page)
    (c : TransactionDigest) (hskip : s.skip_page = true) :
    (extractStep s (QueryResult.ok p)).1.emitted = [] ∧
    (∀ ev, ev ∉ (extractStep s (QueryResult.ok p)).1.emitted) ∧
    (p.next_cursor = some c →
      (extractStep s (QueryResult.ok p)).2.cursor = some c ∧
      (extractStep s (QueryResult.ok p)).2.skip_page = false) := by
  cases hp : p.next_cursor <;> simp [extractStep, hskip, hp]

/-- C10 witness: a skip-state step over the concrete re-poll page emits
nothing and advances the cursor to 200 with the skip flag cleared. -/
theorem extract_skip_page_suppresses_emission_witness :
    (extractStep ⟨some 100, true, 0⟩ (QueryResult.ok pageRepoll)).1.emitted = [] ∧
    (∀ ev, ev ∉ (extractStep ⟨some 100, true, 0⟩ (QueryResult.ok pageRepoll)).1.emitted) ∧
    (pageRepoll.next_cursor = some 200 →
      (extractStep ⟨some 100, true, 0⟩ (QueryResult.ok pageRepoll)).2.cursor = some 200 ∧
      (extractStep ⟨some 100, true, 0⟩ (QueryResult.ok pageRepoll)).2.skip_page = false) :=
  extract_skip_page_suppresses_emission ⟨some 100, true, 0⟩ pageRepoll 200 rfl

/-- C2: once the driver sees an item with Err status at the transform
boundary, it logs that item, consumes nothing further, and forwards exactly
the items that preceded the failing one. -/
theorem driver_halts_at_first_err (pre : List (StepStatus × ObjectSnapshot))
    (a : ObjectSnapshot) (post : List (StepStatus × ObjectSnapshot))
    (h : ∀ x ∈ pre, x.1 = StepStatus.ok) :
    driverRun (pre ++ (StepStatus.err, a) :: post) =
      { consumed := pre ++ [(StepStatus.err, a)],
        forwarded := pre.map Prod.snd,
        failedItem := some a } := by
  induction pre with
  | nil => simp [driverRun]
  | cons x pre ih =>
    obtain ⟨st, it⟩ := x
    have hst : st = StepStatus.ok := h (st, it) (List.mem_cons_self _ _)
    subst hst
    rw [List.cons_append]
    simp [driverRun, ih (fun y hy => h y (List.mem_cons_of_mem _ hy))]

/-- C2 witness: with one Ok item before the failing item and one Ok item
after it, only the leading item is forwarded and the failing item is the one
logged. -/
theorem driver_halts_at_first_err_witness :
    driverRun ([(StepStatus.ok, sampleDeleted)] ++
        (StepStatus.err, sampleCreated) :: [(StepStatus.ok, sampleMutated)]) =
      { consumed := [(StepStatus.ok, sampleDeleted)] ++ [(StepStatus.err, sampleCreated)],
        forwarded := [(StepStatus.ok, sampleDeleted)].map Prod.snd,
        failedItem := some sampleCreated } :=
  driver_halts_at_first_err _ _ _ (by decide)

/-- C1: the Commands::All arm of main forwards an Ok-status item out of the
transform stage, but performs no store operation on it — etl::load is never
invoked by main — even though the load stage, had it been invoked on that
item, would have issued exactly one delete. -/
theorem allCommand_issues_no_store_operation :
    (runAllCommand [(StepStatus.ok, sampleDeleted)]).storeOps = [] ∧
    (runAllCommand [(StepStatus.ok, sampleDeleted)]).forwarded = [sampleDeleted] ∧
    loadItem allOkCollection sampleDeleted =
      some ([StoreOp.deleteOne "7" "5"], [(StepStatus.ok, sampleDeleted)]) :=
  ⟨rfl, rfl, rfl⟩

/-- In the stall state (skip flag set, retry counter zero), a page without a
next cursor is a fixpoint of the loop: nothing is emitted, no callback fires,
and the state is unchanged. -/
lemma extractStep_stall (c : Option TransactionDigest) (m : Page)
    (hm : m.next_cursor = none) :
    extractStep ⟨c, true, 0⟩ (QueryResult.ok m) =
      ({ emitted := [], slept_ms := some 10000, page_callback := none },
       ⟨c, true, 0⟩) := by
  simp [extractStep, hm]

/-- Running any number of cursor-less re-polls from the stall state changes
nothing: the run continues as if they had not happened. -/
lemma extractRun_stall (c : Option TransactionDigest) (rest : List QueryResult)
    (mids : List Page) (hm : ∀ m ∈ mids, m.next_cursor = none) :
    extractRun ⟨c, true, 0⟩ (mids.map QueryResult.ok ++ rest) =
      extractRun ⟨c, true, 0⟩ rest := by
  induction mids with
  | nil => rfl
  | cons m mids ih =>
    have hstep := extractStep_stall c m (hm m (List.mem_cons_self _ _))
    have h1 : extractRun ⟨c, true, 0⟩ ((m :: mids).map QueryResult.ok ++ rest) =
        ((extractStep ⟨c, true, 0⟩ (QueryResult.ok m)).1.emitted ++
          (extractRun (extractStep ⟨c, true, 0⟩ (QueryResult.ok m)).2
            (mids.map QueryResult.ok ++ rest)).1,
         (extractRun (extractStep ⟨c, true, 0⟩ (QueryResult.ok m)).2
            (mids.map QueryResult.ok ++ rest)).2) := rfl
    rw [h1, hstep]
    simp [ih (fun x hx => hm x (List.mem_cons_of_mem _ hx))]

/-- C9: starting without the skip flag, a run over a first page, the stall
page (no next cursor), any number of cursor-less re-polls, and the
re-polled page (same content as the stall page, now with a next cursor)
emits exactly the first page's events followed by the re-polled page's
events: the stalled content appears once, never twice. -/
theorem extract_no_duplicate_on_repoll (s : ExtractState) (p1 p2 p3 : Page)
    (mids : List Page) (c1 c3 : TransactionDigest)
    (h0 : s.skip_page = false)
    (h1 : p1.next_cursor = some c1)
    (h2 : p2.next_cursor = none)
    (hm : ∀ m ∈ mids, m.next_cursor = none)
    (h3 : p3.next_cursor = some c3)
    (hdata : p2.data = p3.data) :
    (extractRun s (QueryResult.ok p1 :: QueryResult.ok p2 ::
        (mids.map QueryResult.ok ++ [QueryResult.ok p3]))).1 =
      pageEvents p1 ++ pageEvents p3 := by
  have hstep1 : extractStep s (QueryResult.ok p1) =
      ({ emitted := pageEvents p1, slept_ms := none, page_callback := some (s.cursor, c1) },
       { cursor := some c1, skip_page := false, retry_count := 0 }) := by
    simp [extractStep, h0, h1]
  have hstep2 : extractStep { cursor := some c1, skip_page := false, retry_count := 0 }
      (QueryResult.ok p2) =
      ({ emitted := pageEvents p2, slept_ms := some 10000, page_callback := none },
       { cursor := some c1, skip_page := true, retry_count := 0 }) := by
    simp [extractStep, h2]
  have hstep3 : extractStep { cursor := some c1, skip_page := true, retry_count := 0 }
      (QueryResult.ok p3) =
      ({ emitted := [], slept_ms := none, page_callback := some (some c1, c3) },
       { cursor := some c3, skip_page := false, retry_count := 0 }) := by
    simp [extractStep, h3]
  have hd : pageEvents p2 = pageEvents p3 := by
    unfold pageEvents
    rw [hdata]
  have hrun : extractRun s (QueryResult.ok p1 :: QueryResult.ok p2 ::
      (mids.map QueryResult.ok ++ [QueryResult.ok p3])) =
      ((extractStep s (QueryResult.ok p1)).1.emitted ++
        ((extractStep (extractStep s (QueryResult.ok p1)).2 (QueryResult.ok p2)).1.emitted ++
          (extractRun (extractStep (extractStep s (QueryResult.ok p1)).2 (QueryResult.ok p2)).2
            (mids.map QueryResult.ok ++ [QueryResult.ok p3])).1),
       (extractRun (extractStep (extractStep s (QueryResult.ok p1)).2 (QueryResult.ok p2)).2
          (mids.map QueryResult.ok ++ [QueryResult.ok p3])).2) := rfl
  rw [hrun, hstep1, hstep2]
  rw [extractRun_stall (some c1) [QueryResult.ok p3] mids hm]
  have hlast : extractRun (⟨some c1, true, 0⟩ : ExtractState) [QueryResult.ok p3] =
      ((extractStep ⟨some c1, true, 0⟩ (QueryResult.ok p3)).1.emitted ++ [],
       (extractStep ⟨some c1, true, 0⟩ (QueryResult.ok p3)).2) := rfl
  rw [hlast, hstep3]
  simp [hd]

/-- C9 witness: the concrete three-page trace with one intermediate
cursor-less re-poll emits exactly the first and the re-polled page's
events. -/
theorem extract_no_duplicate_on_repoll_witness :
    (extractRun ⟨none, false, 0⟩ (QueryResult.ok pageOne :: QueryResult.ok pageStall ::
        ([pageMid].map QueryResult.ok ++ [QueryResult.ok pageRepoll]))).1 =
      pageEvents pageOne ++ pageEvents pageRepoll :=
  extract_no_duplicate_on_repoll ⟨none, false, 0⟩ pageOne pageStall pageRepoll
    [pageMid] 100 200 rfl rfl rfl (by decide) rfl rfl

/-- The fallback loop is the individual-fetch path applied to each item in
order. -/
lemma fallbackLoop_eq_flatMap (indiv : IndivApi) :
    ∀ l : List ObjectSnapshot, fallbackLoop indiv l = l.flatMap (individualFetch indiv)
  | [] => rfl
  | s :: rest => by
    show individualFetch indiv s ++ fallbackLoop indiv rest =
      individualFetch indiv s ++ rest.flatMap (individualFetch indiv)
    rw [fallbackLoop_eq_flatMap indiv rest]

/-- C3: when the bulk call succeeds, the transform batch aborts the process
if and only if the response length differs from the number of needs-fetch
items submitted; under equal lengths the abort branch is unreachable. -/
theorem transform_bulk_length_mismatch_aborts (bulk : BulkApi) (indiv : IndivApi)
    (chunk : List ObjectSnapshot) (objs : List SuiPastObjectResponse)
    (h : bulk ((chunk.filter (fun o => ! o.skipFetchingObject)).map
        ObjectSnapshot.getPastObjectRequest) = Except.ok objs) :
    (transformChunk bulk indiv chunk = none ↔
      objs.length ≠ (chunk.filter (fun o => ! o.skipFetchingObject)).length) := by
  simp only [transformChunk]
  rw [h]
  by_cases hlen : objs.length = (chunk.filter (fun o => ! o.skipFetchingObject)).length
  · simp [hlen]
  · simp [hlen]

/-- C3 witness: a bulk oracle that answers one request with an empty list
makes the batch abort. -/
theorem transform_bulk_length_mismatch_aborts_witness :
    transformChunk bulkEmptyOk indivErr [sampleCreated] = none :=
  (transform_bulk_length_mismatch_aborts bulkEmptyOk indivErr [sampleCreated] [] rfl).mpr
    (by decide)

/-- C6: when the bulk call fails, the batch emits the skip-fetch items
followed by exactly the outcomes of invoking the individual-fetch path on
each needs-fetch item directly, in input order. -/
theorem transform_fallback_equals_individual (bulk : BulkApi) (indiv : IndivApi)
    (chunk : List ObjectSnapshot) (e : RpcError)
    (h : bulk ((chunk.filter (fun o => ! o.skipFetchingObject)).map
        ObjectSnapshot.getPastObjectRequest) = Except.error e) :
    transformChunk bulk indiv chunk =
      some ((chunk.filter ObjectSnapshot.skipFetchingObject).map
          (fun it => (StepStatus.ok, it)) ++
        (chunk.filter (fun o => ! o.skipFetchingObject)).flatMap (individualFetch indiv)) := by
  simp only [transformChunk]
  rw [h, fallbackLoop_eq_flatMap]

/-- C6 witness: under a failing bulk oracle, a chunk of two needs-fetch items
is resolved item by item — the first resolves with an object, the second
errors — in input order. -/
theorem transform_fallback_equals_individual_witness :
    transformChunk bulkFail indivMixed [sampleCreated, sampleMutated] =
      some ((([sampleCreated, sampleMutated].filter ObjectSnapshot.skipFetchingObject).map
          (fun it => (StepStatus.ok, it))) ++
        ([sampleCreated, sampleMutated].filter (fun o => ! o.skipFetchingObject)).flatMap
          (individualFetch indivMixed)) :=
  transform_fallback_equals_individual bulkFail indivMixed [sampleCreated, sampleMutated] 7 rfl

/-- C4 counterexample: a batch of one needs-fetch item whose bulk response
is a no-object outcome produces an empty output — zero pairs for one input
item, so the output does not contain one pair per input item. -/
theorem transform_drops_no_object_item :
    transformChunk bulkNotExists indivErr [sampleCreated] = some [] ∧
    ([sampleCreated] : List ObjectSnapshot).length = 1 :=
  ⟨rfl, rfl⟩

/-- Filtering a list by a predicate and by its negation partitions it. -/
lemma length_filter_partition {α : Type} (p : α → Bool) (l : List α) :
    (l.filter p).length + (l.filter (fun a => ! p a)).length = l.length := by
  induction l with
  | nil => rfl
  | cons a l ih =>
    cases hpa : p a <;> simp [List.filter_cons, hpa] <;> omega

/-- The individual-fetch path emits at most one pair. -/
lemma indivFetch_length_le_one (indiv : IndivApi) (s : ObjectSnapshot) :
    (individualFetch indiv s).length ≤ 1 := by
  unfold individualFetch
  cases indiv s.change.objectId s.getChangeVersion with
  | error e => simp
  | ok res => cases hres : parsePastObjectResponse res <;> simp [hres]

/-- The fallback loop emits one pair per item except for the items whose
individual fetch emits nothing. -/
lemma fallbackLoop_length (indiv : IndivApi) (l : List ObjectSnapshot) :
    (fallbackLoop indiv l).length +
      l.countP (fun s => (individualFetch indiv s).length == 0) = l.length := by
  induction l with
  | nil => rfl
  | cons s l ih =>
    have hle := indivFetch_length_le_one indiv s
    have hcons : fallbackLoop indiv (s :: l) =
        individualFetch indiv s ++ fallbackLoop indiv l := by
      rw [fallbackLoop_eq_flatMap, fallbackLoop_eq_flatMap]
      rfl
    rw [hcons, List.length_append, List.countP_cons]
    by_cases hz : (individualFetch indiv s).length = 0
    · simp only [hz, beq_self_eq_true, if_true, List.length_cons]
      omega
    · have hzf : ((individualFetch indiv s).length == 0) = false := by
        simpa using hz
      simp only [hzf, if_false, List.length_cons, Bool.false_eq_true]
      omega

/-- The bulk-success pairing emits one pair per response except for the
no-object responses. -/
lemma zipResolve_length : ∀ (ss : List ObjectSnapshot) (rs : List SuiPastObjectResponse),
    ss.length = rs.length →
    (zipResolve ss rs).length +
      rs.countP (fun r => (parsePastObjectResponse r).isNone) = rs.length
  | [], [] => by intro _; rfl
  | [], r :: rs => by intro h; simp at h
  | s :: ss, [] => by intro h; simp at h
  | s :: ss, r :: rs => by
    intro h
    have h2 : ss.length = rs.length := by simpa using h
    have ih := zipResolve_length ss rs h2
    have hcons : zipResolve (s :: ss) (r :: rs) =
        (match parsePastObjectResponse r with
         | some obj => [(StepStatus.ok, { s with object := some obj })]
         | none => []) ++ zipResolve ss rs := rfl
    rw [hcons, List.length_append, List.countP_cons]
    cases hr : parsePastObjectResponse r <;>
      simp only [hr, Option.isNone_some, Option.isNone_none, List.length_cons,
        List.length_nil, List.length_singleton, if_true, if_false,
        Bool.false_eq_true] <;>
      omega

/-- C4 amended: each transform batch emits at most one pair per input item —
exactly one for every skip-fetch item and for every needs-fetch item that is
resolved or errors, and none for a needs-fetch item whose resolution returns
a no-object outcome, so the output length plus the number of absorbed items
equals the input length. -/
theorem transform_one_pair_per_surviving_item (bulk : BulkApi) (indiv : IndivApi)
    (chunk : List ObjectSnapshot) (out : List (StepStatus × ObjectSnapshot))
    (h : transformChunk bulk indiv chunk = some out) :
    out.length + droppedCount bulk indiv chunk = chunk.length := by
  have hsplit := length_filter_partition ObjectSnapshot.skipFetchingObject chunk
  cases hb : bulk ((chunk.filter (fun o => ! o.skipFetchingObject)).map
      ObjectSnapshot.getPastObjectRequest) with
  | error e =>
    simp only [transformChunk] at h
    rw [hb] at h
    have hout := (Option.some.inj h).symm
    have hf := fallbackLoop_length indiv (chunk.filter (fun o => ! o.skipFetchingObject))
    simp only [droppedCount]
    rw [hb, hout]
    simp only [List.length_append, List.length_map]
    omega
  | ok objs =>
    simp only [transformChunk] at h
    rw [hb] at h
    by_cases hlen : objs.length = (chunk.filter (fun o => ! o.skipFetchingObject)).length
    · simp only [hlen, ne_eq, not_true_eq_false, if_false, ite_false] at h
      have hout := (Option.some.inj (by simpa [hlen] using h)).symm
      have hz := zipResolve_length (chunk.filter (fun o => ! o.skipFetchingObject)) objs hlen.symm
      simp only [droppedCount]
      rw [hb, hout]
      simp only [List.length_append, List.length_map]
      omega
    · simp [hlen] at h

/-- C4 amended witness: the one-item batch whose resolution is absorbed has
output length zero plus one dropped item, matching the input length one. -/
theorem transform_one_pair_per_surviving_item_witness :
    (([] : List (StepStatus × ObjectSnapshot)).length) +
      droppedCount bulkNotExists indivErr [sampleCreated] =
      ([sampleCreated] : List ObjectSnapshot).length :=
  transform_one_pair_per_surviving_item bulkNotExists indivErr [sampleCreated] [] rfl

/-- The individual-fetch path emits either nothing or its own item (up to the
attached object). -/
lemma indivFetch_strip (indiv : IndivApi) (s : ObjectSnapshot) :
    ((individualFetch indiv s).map (fun pr => stripObject pr.2)) = [] ∨
    ((individualFetch indiv s).map (fun pr => stripObject pr.2)) = [stripObject s] := by
  unfold individualFetch
  cases indiv s.change.objectId s.getChangeVersion with
  | error e => right; rfl
  | ok res =>
    cases hres : parsePastObjectResponse res with
    | none => left; simp [hres]
    | some obj => right; simp [hres]; rfl

/-- The fallback emissions keep the input order of the needs-fetch items: up
to the attached object, they form a sublist of the input. -/
lemma flatMap_strip_sublist (indiv : IndivApi) (l : List ObjectSnapshot) :
    List.Sublist ((l.flatMap (individualFetch indiv)).map (fun pr => stripObject pr.2))
      (l.map stripObject) := by
  induction l with
  | nil => simp
  | cons s l ih =>
    have hcons : (s :: l).flatMap (individualFetch indiv) =
        individualFetch indiv s ++ l.flatMap (individualFetch indiv) := rfl
    rw [hcons, List.map_append, List.map_cons]
    rcases indivFetch_strip indiv s with hc | hc
    · rw [hc, List.nil_append]
      exact List.Sublist.cons _ ih
    · rw [hc, List.singleton_append]
      exact List.Sublist.cons₂ _ ih

/-- The bulk-success emissions keep the input order of the needs-fetch items:
up to the attached object, they form a sublist of the input. -/
lemma zipResolve_strip_sublist : ∀ (ss : List ObjectSnapshot) (rs : List SuiPastObjectResponse),
    List.Sublist ((zipResolve ss rs).map (fun pr => stripObject pr.2)) (ss.map stripObject)
  | [], rs => by
    have h : zipResolve [] rs = [] := by cases rs <;> rfl
    simp [h]
  | s :: ss, [] => by
    have h : zipResolve (s :: ss) [] = [] := rfl
    simp [h]
  | s :: ss, r :: rs => by
    have hcons : zipResolve (s :: ss) (r :: rs) =
        (match parsePastObjectResponse r with
         | some obj => [(StepStatus.ok, { s with object := some obj })]
         | none => []) ++ zipResolve ss rs := rfl
    rw [hcons]
    cases hr : parsePastObjectResponse r with
    | none =>
      show (List.map (fun pr => stripObject pr.2) (zipResolve ss rs)).Sublist
        (stripObject s :: ss.map stripObject)
      exact List.Sublist.cons _ (zipResolve_strip_sublist ss rs)
    | some obj =>
      show (stripObject s :: List.map (fun pr => stripObject pr.2) (zipResolve ss rs)).Sublist
        (stripObject s :: ss.map stripObject)
      exact List.Sublist.cons₂ _ (zipResolve_strip_sublist ss rs)

/-- C5: each transform batch emits all of its skip-fetch items first, as
(Ok, item) unchanged and in input order, followed by the fetch-path
emissions, which keep the relative input order of the needs-fetch items. -/
theorem transform_skip_first_order_kept (bulk : BulkApi) (indiv : IndivApi)
    (chunk : List ObjectSnapshot) (out : List (StepStatus × ObjectSnapshot))
    (h : transformChunk bulk indiv chunk = some out) :
    ∃ fetchOut,
      out = (chunk.filter ObjectSnapshot.skipFetchingObject).map
          (fun it => (StepStatus.ok, it)) ++ fetchOut ∧
      List.Sublist (fetchOut.map (fun pr => stripObject pr.2))
        ((chunk.filter (fun o => ! o.skipFetchingObject)).map stripObject) := by
  cases hb : bulk ((chunk.filter (fun o => ! o.skipFetchingObject)).map
      ObjectSnapshot.getPastObjectRequest) with
  | error e =>
    simp only [transformChunk] at h
    rw [hb] at h
    refine ⟨fallbackLoop indiv (chunk.filter (fun o => ! o.skipFetchingObject)),
      (Option.some.inj h).symm, ?_⟩
    rw [fallbackLoop_eq_flatMap]
    exact flatMap_strip_sublist indiv _
  | ok objs =>
    simp only [transformChunk] at h
    rw [hb] at h
    by_cases hlen : objs.length = (chunk.filter (fun o => ! o.skipFetchingObject)).length
    · refine ⟨zipResolve (chunk.filter (fun o => ! o.skipFetchingObject)) objs,
        (Option.some.inj (by simpa [hlen] using h)).symm, ?_⟩
      exact zipResolve_strip_sublist _ _
    · simp [hlen] at h

/-- C5 witness: a chunk of one skip-fetch item followed by one needs-fetch
item whose response is absorbed emits the skip-fetch item first and an empty
fetch part. -/
theorem transform_skip_first_order_kept_witness :
    ∃ fetchOut,
      ([(StepStatus.ok, sampleDeleted)] : List (StepStatus × ObjectSnapshot)) =
        (([sampleDeleted, sampleCreated].filter ObjectSnapshot.skipFetchingObject).map
          (fun it => (StepStatus.ok, it))) ++ fetchOut ∧
      List.Sublist (fetchOut.map (fun pr => stripObject pr.2))
        (([sampleDeleted, sampleCreated].filter (fun o => ! o.skipFetchingObject)).map
          stripObject) :=
  transform_skip_first_order_kept bulkNotExists indivErr [sampleDeleted, sampleCreated]
    [(StepStatus.ok, sampleDeleted)] rfl

/-- C7: for every event reaching the load stage, a deleted event issues
exactly one delete keyed by the string forms of its object identifier and
version and no upsert; a created or mutated event with an attached object
issues exactly one update under the same string key with upsert set to true
and the attached object as body; each attempted operation emits (Ok, item)
when the store call succeeds and (Err, item) when it fails; any other
variant issues no operation and emits nothing. -/
theorem load_store_semantics (c : MongoCollection) (item : ObjectSnapshot) :
    (∀ oid v, item.change = SuiObjectChange.deleted oid v →
      loadItem c item = some ([StoreOp.deleteOne (toString oid) (toString v)],
        [((if c.deleteOk (toString oid) (toString v) then StepStatus.ok else StepStatus.err),
          item)])) ∧
    (∀ oid v obj,
      (item.change = SuiObjectChange.created oid v ∨
       item.change = SuiObjectChange.mutated oid v) →
      item.object = some obj →
      loadItem c item = some ([StoreOp.updateOne (toString oid) (toString v) obj true],
        [((if c.upsertOk (toString oid) (toString v) then StepStatus.ok else StepStatus.err),
          item)])) ∧
    (∀ oid v,
      (item.change = SuiObjectChange.published oid v ∨
       item.change = SuiObjectChange.transferred oid v ∨
       item.change = SuiObjectChange.wrapped oid v) →
      loadItem c item = some ([], [])) := by
  refine ⟨?_, ?_, ?_⟩
  · intro oid v heq
    by_cases hd : c.deleteOk (toString oid) (toString v) <;> simp [loadItem, heq, hd]
  · intro oid v obj heq hobj
    rcases heq with heq | heq <;>
      by_cases hu : c.upsertOk (toString oid) (toString v) <;>
      simp [loadItem, heq, hobj, hu]
  · intro oid v heq
    rcases heq with heq | heq | heq <;> simp [loadItem, heq]

/-- C7 witness: on an all-success collection, the concrete deleted event
issues exactly one delete keyed by the strings of 7 and 5 and emits Ok. -/
theorem load_store_semantics_witness :
    loadItem allOkCollection sampleDeleted =
      some ([StoreOp.deleteOne (toString (7 : Nat)) (toString (5 : Nat))],
        [((if allOkCollection.deleteOk (toString (7 : Nat)) (toString (5 : Nat))
            then StepStatus.ok else StepStatus.err), sampleDeleted)]) :=
  (load_store_semantics allOkCollection sampleDeleted).1 7 5 rfl

end Huracan
